import Mathlib

/-!
Shallow embedding of `src/server.py` (Medical-Llama3-v2 FastAPI server) and of
the helper `src/frma/lib/collect_code.py` where needed, together with proofs of
the specification claims about this program.

Conventions of the embedding:
* Python floats carried by the requests (`temperature`, `top_p`) are embedded
  as `ℚ`; the only operations the program performs on them are the exact
  comparisons `<= 0.0` and `>= 1.0`.
* The opaque objects of the ML library (loaded model, loaded tokenizer) carry
  no observable structure in this program beyond being present or absent, so
  they are embedded as `Option Unit`.
* Library behaviour that the program merely invokes (tokenisation, the chat
  template, the decoding loop, load success/failure) is abstracted into an
  environment `Env` of arbitrary functions and outcome flags, so all theorems
  quantify over every possible library behaviour.
* Python `str.strip()` is embedded as `pyStrip` (drop whitespace from both
  ends) and Python f-string rendering of an `int` as `intDecimal`.
-/

namespace Server

/-! ## Small string machinery (Python `strip`, `join`, int rendering, lines) -/

/-- Decimal digit character for `n < 10` (Python rendering of one digit). -/
def natDigitChar (n : Nat) : Char := Char.ofNat (48 + n)

/-- Accumulator pass of decimal rendering: prepends the digits of `n`
(most significant first) to `acc`. -/
def natDecAux (n : Nat) (acc : List Char) : List Char :=
  if h : n < 10 then natDigitChar n :: acc
  else natDecAux (n / 10) (natDigitChar (n % 10) :: acc)
  termination_by n
  decreasing_by
    exact Nat.div_lt_self (by omega) (by omega)

/-- Decimal rendering of a natural number, as Python `str` would produce. -/
def natDecimal (n : Nat) : List Char := natDecAux n []

/-- Decimal rendering of an integer, as Python `str` / f-string formatting. -/
def intDecimal (i : Int) : List Char :=
  if i < 0 then '-' :: natDecimal i.natAbs else natDecimal i.toNat

/-- Python `str.strip()`: remove whitespace from both ends. -/
def pyStrip (s : List Char) : List Char :=
  ((s.dropWhile Char.isWhitespace).reverse.dropWhile Char.isWhitespace).reverse

/-- Python `"\n".join(parts)`. -/
def joinNL : List (List Char) → List Char
  | [] => []
  | [p] => p
  | p :: rest => p ++ '\n' :: joinNL rest

/-- Split a character sequence at newline characters (the lines of a text,
used to state the profile-line counting claims). -/
def splitLines : List Char → List (List Char)
  | [] => [[]]
  | c :: rest =>
    match splitLines rest with
    | [] => [[c]]
    | l :: ls => if c = '\n' then [] :: l :: ls else (c :: l) :: ls

/-- A profile bullet line: a line starting with `"- "`. -/
def isBulletLine : List Char → Bool
  | '-' :: ' ' :: _ => true
  | _ => false

/-- Number of profile bullet lines in a text. -/
def countBulletLines (s : List Char) : Nat :=
  ((splitLines s).filter isBulletLine).length

/-! ## Data model (`server.py` lines 21-72, 93-96) -/

/-- `HARDCODED_MODEL_ID = "ruslanmv/Medical-Llama3-v2"` (server.py line 21). -/
def HARDCODED_MODEL_ID : String := "ruslanmv/Medical-Llama3-v2"

/-- `CHAT_SYSTEM_PROMPT` (server.py lines 23-28). -/
def CHAT_SYSTEM_PROMPT : String :=
  "You are a knowledgeable Medical AI Assistant.\nUSER PROFILE CONTEXT (if provided): Consider the user's age, gender, conditions, and allergies for more personalized and relevant answers. Do not explicitly restate the profile unless asked. Only reply to Question asked.\nTASK: Provide helpful and informative answers to general medical queries in a clear and understanding way. If you don't know the answer or if it's a serious medical issue, advise seeking professional help from a doctor.\n4. In case there are specialised medical terms, explain them in simple english(eg: . Pneumoperitoneum)\n5. Do **NOT** generate quizzes, exam questions, or multiple-choice answers.\n6. Do **NOT** ask the user to choose between A/B/C/D."

/-- `EMERGENCY_SYSTEM_PROMPT` (server.py lines 30-37). -/
def EMERGENCY_SYSTEM_PROMPT : String :=
  "You are an Emergency First Aid Advisor.\nUSER PROFILE CONTEXT (if provided): Consider the user's age, known conditions, and allergies when providing steps, but prioritize immediate life-saving actions.\nTASK: Provide immediate, actionable, step-by-step first aid instructions for a layperson based STRICTLY on the situation and symptoms provided in the user prompt.\nPRIORITY 1: If the situation sounds potentially life-threatening (e.g., stroke symptoms, unconsciousness, severe bleeding, difficulty breathing), your FIRST step MUST be '1. Call emergency services (like 911, 112, etc.) immediately!'.\nThen, list ONLY simple, practical steps the person can take WHILE WAITING for professional help. Number each step (1., 2., 3., ...). Use simple language. Be concise and direct. ENSURE specific maneuvers are recommended when appropriate (eg: Heimlich for choking).\nDO NOT explain medical conditions. DO NOT add conversational filler. Just provide the comprehensive numbered steps.\n5. Do **NOT** generate quizzes, exam questions, or multiple-choice answers.\n6. Do **NOT** ask the user to choose between A/B/C/D."

/-- `UserProfile` (server.py lines 39-48): every field optional.  The values
model the entries of `request.user_profile.model_dump(exclude_unset=True)`:
`none` stands both for an omitted field and for an explicit JSON `null`
(`dict.get` returns a falsy `None` in both cases). -/
structure UserProfile where
  age : Option Int
  gender : Option String
  conditions : Option (List String)
  allergies : Option (List String)
  medications : Option (List String)
  name : Option String
  weight_kg : Option ℚ
  height_cm : Option ℚ
  blood_type : Option String
  deriving Repr, DecidableEq

/-- `ChatMessage` (server.py lines 50-52). -/
structure ChatMessage where
  role : String
  content : String
  deriving Repr, DecidableEq

/-- Requested precision (`--precision` choices, server.py line 388). -/
inductive Precision
  | p4bit
  | p16bit
  | p32bit
  deriving Repr, DecidableEq

/-- `torch.device` as used here (server.py lines 112-117). -/
inductive Device
  | cuda
  | cpu
  deriving Repr, DecidableEq

/-- The process-wide model session singleton: globals `model`, `tokenizer`,
`device`, `model_id_loaded` (server.py lines 93-96).  The loaded model and
tokenizer are opaque library objects, embedded as `Option Unit`. -/
structure Session where
  model : Option Unit
  tokenizer : Option Unit
  device : Option Device
  model_id_loaded : Option String
  deriving Repr, DecidableEq

/-- The initial session state: all four globals are `None`. -/
def Session.init : Session :=
  { model := none, tokenizer := none, device := none, model_id_loaded := none }

/-- The `model_kwargs` of interest computed by the loader (server.py lines
120-135): whether 4-bit quantization is configured, and the explicit
`torch_dtype` if any (`none` means the library default, float32). -/
structure ModelKwargs where
  quantization4bit : Bool
  torchDtypeFloat16 : Bool
  deriving Repr, DecidableEq

/-- Environment of library behaviour and hardware facts that `server.py`
invokes but does not define.  Quantifying theorems over `Env` makes them hold
for every possible behaviour of the ML library. -/
structure Env where
  /-- `torch.cuda.is_available()`. -/
  cudaAvailable : Bool
  /-- CLI `--precision`, read by the lazy-load path via `app.state`. -/
  precision : Precision
  /-- whether `AutoTokenizer.from_pretrained` succeeds. -/
  tokLoadOk : Bool
  /-- whether `AutoModelForCausalLM.from_pretrained` succeeds. -/
  modelLoadOk : Bool
  /-- whether the `model.generate` call raises. -/
  genOk : Bool
  /-- the tokenizer encoding: prompt string to token ids. -/
  tokenize : String → List Nat
  /-- `tokenizer.apply_chat_template(..., tokenize=False, add_generation_prompt=True)`. -/
  applyChatTemplate : List ChatMessage → String
  /-- Modelled from the spec: greedy decoding — deterministic selection of the
  highest-probability continuation, a function of the input tokens only.
  Returns the full sequence (input prefix followed by new tokens), as
  `model.generate` does. -/
  greedyGen : List Nat → List Nat
  /-- Modelled from the spec: sampling decoding — token selection drawn from a
  probability distribution shaped by temperature/top_p, hence dependent on a
  random state in addition to the input tokens. -/
  sampleGen : List Nat → Nat → List Nat
  /-- the random state consumed by sampling. -/
  rng : Nat
  /-- `tokenizer.decode(..., skip_special_tokens=True)`. -/
  decode : List Nat → String

/-! ## Model Loader (`load_model_and_tokenizer`, server.py lines 98-172) -/

/-- The CPU fallback (server.py line 118): on a machine without CUDA a 4-bit
request is downgraded to 16-bit before any quantization choice is made. -/
def effectivePrecision (cudaAvailable : Bool) (p : Precision) : Precision :=
  if cudaAvailable then p
  else if p = .p4bit then .p16bit else p

/-- `device` selection (server.py lines 112-117). -/
def deviceOf (cudaAvailable : Bool) : Device :=
  if cudaAvailable then .cuda else .cpu

/-- The `model_kwargs` branch (server.py lines 120-135): 4-bit quantization is
configured only for `precision == "4-bit"` on a CUDA device; `"16-bit"` sets
`torch_dtype=float16`; otherwise the float32 default is used. -/
def modelKwargs (p : Precision) (d : Device) : ModelKwargs :=
  if p = .p4bit ∧ d = .cuda then { quantization4bit := true, torchDtypeFloat16 := false }
  else if p = .p16bit then { quantization4bit := false, torchDtypeFloat16 := true }
  else { quantization4bit := false, torchDtypeFloat16 := false }

/-- The `model_kwargs` a load request with the given CLI precision ends up
passing to `AutoModelForCausalLM.from_pretrained`, after the CPU fallback and
the device selection (composition of lines 112-135). -/
def loaderKwargs (cudaAvailable : Bool) (requested : Precision) : ModelKwargs :=
  modelKwargs (effectivePrecision cudaAvailable requested) (deviceOf cudaAvailable)

/-- `load_model_and_tokenizer` (server.py lines 98-172) as a state transformer
on the session singleton.  Returns the new session and `.ok` on return,
`.error` when the underlying library load raised (the exception propagates to
the caller).  The no-op check (line 101) compares only the model identifier;
the clear branch (lines 107-111) frees the prior session; tokenizer failure
(lines 144-146) re-raises without touching the globals beyond `device`; model
failure (lines 167-172) resets `tokenizer`, `model` and `model_id_loaded` to
`None` before re-raising. -/
def load_model_and_tokenizer (env : Env) (precision : Precision) (st : Session) :
    Session × Except Unit Unit :=
  if st.model.isSome ∧ st.model_id_loaded = some HARDCODED_MODEL_ID then
    (st, .ok ())
  else
    let st₁ : Session :=
      if st.model.isSome then
        { st with model := none, tokenizer := none, model_id_loaded := none }
      else st
    let dev := deviceOf env.cudaAvailable
    let st₂ : Session := { st₁ with device := some dev }
    let _kwargs := modelKwargs (effectivePrecision env.cudaAvailable precision) dev
    if env.tokLoadOk = false then
      (st₂, .error ())
    else
      let st₃ : Session := { st₂ with tokenizer := some () }
      if env.modelLoadOk = false then
        ({ st₃ with tokenizer := none, model := none, model_id_loaded := none }, .error ())
      else
        ({ st₃ with model := some (), model_id_loaded := some HARDCODED_MODEL_ID }, .ok ())

/-! ## Health Check (`health_check`, server.py lines 191-204) -/

/-- The JSON value in the `model_id` field: a string or `null`. -/
inductive JsonStr
  | s (v : String)
  | null
  deriving Repr, DecidableEq

/-- The body of the `/health` response. -/
structure HealthResponse where
  status : String
  model_status : String
  model_id : JsonStr
  deriving Repr, DecidableEq

/-- `health_check` (server.py lines 191-204): reads the globals, mutates
nothing.  `model_status` is `"loaded"` exactly when both `model` and
`tokenizer` are non-`None`; the returned session is the input session. -/
def health_check (st : Session) : HealthResponse × Session :=
  let loaded := st.model.isSome ∧ st.tokenizer.isSome
  if loaded then
    ({ status := "healthy", model_status := "loaded",
       model_id := match st.model_id_loaded with
         | some id => .s id
         | none => .null }, st)
  else
    ({ status := "healthy", model_status := "not loaded", model_id := .s "None" }, st)

/-! ## Prompt Builder (profile block and message list,
server.py lines 225-252) -/

/-- Python truthiness of `profile_data.get('age')`: an `int` is truthy iff
non-zero (`None` and `0` are falsy). -/
def truthyInt : Option Int → Bool
  | none => false
  | some a => a ≠ 0

/-- Python truthiness of a string field: non-`None` and non-empty. -/
def truthyStr : Option String → Bool
  | none => false
  | some s => s ≠ ""

/-- Python truthiness of a list field: non-`None` and non-empty. -/
def truthyList : Option (List String) → Bool
  | none => false
  | some l => l ≠ []

/-- Python `", ".join(items)`. -/
def joinComma : List String → String
  | [] => ""
  | [x] => x
  | x :: rest => x ++ ", " ++ joinComma rest

/-- The profile bullet line rendered for a truthy `age` field
(server.py line 230). -/
def ageLine (a : Int) : List Char :=
  ('-' :: ' ' :: "Age: ".data) ++ intDecimal a

/-- The `profile_parts` list (server.py lines 228-238): one bullet string per
truthy field, in source order; the weight/height/blood-type lines are
commented out in the source and therefore absent here. -/
def profileParts (p : UserProfile) : List (List Char) :=
  (if truthyInt p.age then [ageLine (p.age.getD 0)] else []) ++
  (if truthyStr p.gender then [('-' :: ' ' :: "Gender: ".data) ++ (p.gender.getD "").data] else []) ++
  (if truthyList p.conditions then
    [('-' :: ' ' :: "Known Conditions: ".data) ++ (joinComma (p.conditions.getD [])).data] else []) ++
  (if truthyList p.allergies then
    [('-' :: ' ' :: "Known Allergies: ".data) ++ (joinComma (p.allergies.getD [])).data] else []) ++
  (if truthyList p.medications then
    [('-' :: ' ' :: "Current Medications: ".data) ++ (joinComma (p.medications.getD [])).data] else [])

/-- The effective system prompt (server.py lines 225-244): if a profile was
provided and yields at least one part, prepend
`strip("User Profile:\n" + "\n".join(parts)) + "\n\n"` to the base prompt. -/
def effectiveSystemPrompt (base : String) (profile : Option UserProfile) : String :=
  match profile with
  | none => base
  | some pd =>
    let parts := profileParts pd
    if parts.isEmpty then base
    else
      let profileStr := "User Profile:".data ++ '\n' :: joinNL parts
      ⟨pyStrip profileStr ++ '\n' :: '\n' :: base.data⟩

/-- The message list handed to `tokenizer.apply_chat_template` (server.py
line 252): system message, then the history in order, then the user turn. -/
def buildMessages (systemPrompt : String) (history : List ChatMessage)
    (userContent : String) : List ChatMessage :=
  { role := "system", content := systemPrompt } :: history ++
    [{ role := "user", content := userContent }]

/-! ## Generation configuration (server.py lines 271-291) -/

/-- The `gen_params` dictionary built by both endpoints (server.py lines
332-337 and 361-366).  All three keys are always present; a value is `none`
when the client sent an explicit JSON `null` for the corresponding optional
request field. -/
structure GenParamsDict where
  max_new_tokens : Option Int
  temperature : Option ℚ
  top_p : Option ℚ
  deriving Repr, DecidableEq

/-- The sampling-relevant slice of `generation_config` (server.py lines
272-291). -/
structure GenerationConfig where
  max_new_tokens : Option Int
  temperature : Option ℚ
  top_p : Option ℚ
  do_sample : Bool
  deriving Repr, DecidableEq

/-- Building `generation_config` (server.py lines 272-291): `do_sample` starts
`True`; when `temperature <= 0.0 and top_p >= 1.0` the config switches to
greedy search and pops `temperature` and `top_p`.  A `None` operand of the
comparisons raises a `TypeError` (caught by the surrounding `try` and
surfaced as a generation failure), embedded as `.error`.  Python `and`
short-circuits, so `top_p = None` only raises when `temperature <= 0.0`. -/
def buildGenerationConfig (gp : GenParamsDict) : Except Unit GenerationConfig :=
  let cfg : GenerationConfig :=
    { max_new_tokens := gp.max_new_tokens, temperature := gp.temperature,
      top_p := gp.top_p, do_sample := true }
  match gp.temperature with
  | none => .error ()
  | some t =>
    if t ≤ 0 then
      match gp.top_p with
      | none => .error ()
      | some p =>
        if 1 ≤ p then
          .ok { cfg with do_sample := false, temperature := none, top_p := none }
        else .ok cfg
    else .ok cfg

/-- `model.generate` (server.py lines 296-301), modelled from the spec: the
decoding loop runs under sampling (stochastic, consuming the random state)
when `do_sample` is set, and greedy decoding (deterministic) otherwise; it
returns the input tokens followed by the newly generated ones. -/
def runGenerate (env : Env) (cfg : GenerationConfig) (inputIds : List Nat) : List Nat :=
  if cfg.do_sample then env.sampleGen inputIds env.rng else env.greedyGen inputIds

/-! ## Generation Invoker (`_generate_response`, server.py lines 207-319) -/

/-- The two error classes `_generate_response` can raise (server.py lines
222 and 319). -/
inductive GenError
  | serviceUnavailable
  | generationFailure
  deriving Repr, DecidableEq

/-- The token ids fed to `model.generate`: the formatted prompt tokenised with
`truncation=True, max_length=4096` (server.py line 266), i.e. at most the
first 4096 tokens. -/
def truncatedInputIds (env : Env) (promptFormatted : String) : List Nat :=
  (env.tokenize promptFormatted).take 4096

/-- `_generate_response` (server.py lines 207-319) as a state transformer.
Lazy-loads the model when either global is `None` (line 215), mapping a load
failure to 503; builds the effective system prompt, the message list and the
formatted prompt; tokenises with truncation; builds the generation config;
runs generation and decodes only the newly produced tokens; any exception in
the `try` block (config `TypeError` or a raising `generate`) maps to 500. -/
def generate_response (env : Env) (st : Session) (systemPromptBase : String)
    (userContent : String) (historyList : List ChatMessage) (genParams : GenParamsDict)
    (profileData : Option UserProfile) : Session × Except GenError String :=
  let loadStep : Session × Except Unit Unit :=
    if st.model = none ∨ st.tokenizer = none then
      load_model_and_tokenizer env env.precision st
    else (st, .ok ())
  let st' := loadStep.1
  match loadStep.2 with
  | .error _ => (st', .error .serviceUnavailable)
  | .ok _ =>
    let systemPrompt := effectiveSystemPrompt systemPromptBase profileData
    let messages := buildMessages systemPrompt historyList userContent
    let promptFormatted := env.applyChatTemplate messages
    let inputIds := truncatedInputIds env promptFormatted
    match buildGenerationConfig genParams with
    | .error _ => (st', .error .generationFailure)
    | .ok cfg =>
      if env.genOk then
        let outputs := runGenerate env cfg inputIds
        let answer : String := ⟨pyStrip (env.decode (outputs.drop inputIds.length)).data⟩
        (st', .ok answer)
      else (st', .error .generationFailure)

/-! ## HTTP Endpoint Layer (server.py lines 54-69, 322-380) -/

/-- A request body field on the wire: `none` = key absent from the JSON body,
`some v` = key present with value `v` (where `v` itself is an `Option` for
fields typed `Optional[...]`, `none` meaning an explicit JSON `null`). -/
abbrev Wire (α : Type) := Option α

/-- The raw body of a `POST /chat` request, before pydantic validation
(request schema `ChatRequest`, server.py lines 54-60).  Only well-typed
bodies are represented: a type error in a present field is rejected by
pydantic before the handler runs, just like a missing `prompt`. -/
structure RawChatRequest where
  prompt : Wire String
  history : Wire (List ChatMessage)
  user_profile : Wire (Option UserProfile)
  max_new_tokens : Wire (Option Int)
  temperature : Wire (Option ℚ)
  top_p : Wire (Option ℚ)

/-- The raw body of a `POST /emergency_assessment` request
(`EmergencyAssessmentRequest`, server.py lines 62-69): same fields except
`history`. -/
structure RawEmergencyRequest where
  prompt : Wire String
  user_profile : Wire (Option UserProfile)
  max_new_tokens : Wire (Option Int)
  temperature : Wire (Option ℚ)
  top_p : Wire (Option ℚ)

/-- A validated `ChatRequest` (server.py lines 54-60). -/
structure ChatRequest where
  prompt : String
  history : List ChatMessage
  user_profile : Option UserProfile
  max_new_tokens : Option Int
  temperature : Option ℚ
  top_p : Option ℚ
  deriving Repr

/-- A validated `EmergencyAssessmentRequest` (server.py lines 62-69). -/
structure EmergencyAssessmentRequest where
  prompt : String
  user_profile : Option UserProfile
  max_new_tokens : Option Int
  temperature : Option ℚ
  top_p : Option ℚ
  deriving Repr

/-- Pydantic validation of a `/chat` body: `prompt` is required
(`Field(...)`), every other field falls back to its declared default
(`history=[]`, `user_profile=None`, `max_new_tokens=512`, `temperature=0.7`,
`top_p=0.9`). -/
def parseChatRequest (raw : RawChatRequest) : Except Unit ChatRequest :=
  match raw.prompt with
  | none => .error ()
  | some p =>
    .ok { prompt := p
          history := raw.history.getD []
          user_profile := raw.user_profile.getD none
          max_new_tokens := raw.max_new_tokens.getD (some 512)
          temperature := raw.temperature.getD (some (0.7 : ℚ))
          top_p := raw.top_p.getD (some (0.9 : ℚ)) }

/-- Pydantic validation of an `/emergency_assessment` body: `prompt` required,
defaults `max_new_tokens=768`, `temperature=0.3`, `top_p=0.7`. -/
def parseEmergencyRequest (raw : RawEmergencyRequest) :
    Except Unit EmergencyAssessmentRequest :=
  match raw.prompt with
  | none => .error ()
  | some p =>
    .ok { prompt := p
          user_profile := raw.user_profile.getD none
          max_new_tokens := raw.max_new_tokens.getD (some 768)
          temperature := raw.temperature.getD (some (0.3 : ℚ))
          top_p := raw.top_p.getD (some (0.7 : ℚ)) }

/-- What a request surfaces to the client. -/
inductive Outcome
  /-- 422 schema-validation error produced by FastAPI/pydantic before the
  handler body runs. -/
  | validationError
  /-- an `HTTPException` with the given status code. -/
  | httpError (code : Nat)
  /-- 200 with `{"answer": ...}`. -/
  | ok (answer : String)
  deriving Repr, DecidableEq

/-- Mapping of `_generate_response` errors to HTTP status codes (server.py
lines 222 and 319). -/
def outcomeOfResult : Except GenError String → Outcome
  | .ok a => .ok a
  | .error .serviceUnavailable => .httpError 503
  | .error .generationFailure => .httpError 500

/-- `POST /chat` (server.py lines 323-350): validate, build `gen_params` and
the profile dictionary, call `_generate_response` with the chat system prompt
and the request history. -/
def chatEndpoint (env : Env) (st : Session) (raw : RawChatRequest) :
    Session × Outcome :=
  match parseChatRequest raw with
  | .error _ => (st, .validationError)
  | .ok req =>
    let genParams : GenParamsDict :=
      { max_new_tokens := req.max_new_tokens, temperature := req.temperature,
        top_p := req.top_p }
    let res := generate_response env st CHAT_SYSTEM_PROMPT req.prompt
      req.history genParams req.user_profile
    (res.1, outcomeOfResult res.2)

/-- `POST /emergency_assessment` (server.py lines 353-380): validate, build
`gen_params`, call `_generate_response` with the emergency system prompt and
an empty history. -/
def emergencyEndpoint (env : Env) (st : Session) (raw : RawEmergencyRequest) :
    Session × Outcome :=
  match parseEmergencyRequest raw with
  | .error _ => (st, .validationError)
  | .ok req =>
    let genParams : GenParamsDict :=
      { max_new_tokens := req.max_new_tokens, temperature := req.temperature,
        top_p := req.top_p }
    let res := generate_response env st EMERGENCY_SYSTEM_PROMPT req.prompt
      [] genParams req.user_profile
    (res.1, outcomeOfResult res.2)

/-! ## Concrete instances used to exercise the embedding -/

/-- An environment where every library call succeeds (CPU machine). -/
def envOk : Env :=
  { cudaAvailable := false, precision := .p16bit, tokLoadOk := true,
    modelLoadOk := true, genOk := true, tokenize := fun _ => [0],
    applyChatTemplate := fun _ => "", greedyGen := fun ids => ids,
    sampleGen := fun ids _ => ids, rng := 0, decode := fun _ => "ok" }

/-- Like `envOk` but the model-weights load raises. -/
def envModelLoadFails : Env := { envOk with modelLoadOk := false }

/-- Like `envOk` but the `generate` call raises. -/
def envGenFails : Env := { envOk with genOk := false }

/-- Like `envOk` but every prompt tokenises to 5000 tokens. -/
def envLongTokens : Env := { envOk with tokenize := fun _ => List.replicate 5000 0 }

/-- The session after a successful load on a CPU machine. -/
def loadedSession : Session :=
  { model := some (), tokenizer := some (), device := some .cpu,
    model_id_loaded := some HARDCODED_MODEL_ID }

/-- A profile whose only set field is `age`, with the given value. -/
def ageOnlyProfile (a : Int) : UserProfile :=
  { age := some a, gender := none, conditions := none, allergies := none,
    medications := none, name := none, weight_kg := none, height_cm := none,
    blood_type := none }

/-- A `/chat` body missing the required `prompt` field. -/
def rawChatNoPrompt : RawChatRequest :=
  { prompt := none, history := none, user_profile := none,
    max_new_tokens := none, temperature := none, top_p := none }

/-- A `/chat` body carrying only `prompt`. -/
def rawChatMinimal : RawChatRequest :=
  { prompt := some "What is flu?", history := none, user_profile := none,
    max_new_tokens := none, temperature := none, top_p := none }

/-- An `/emergency_assessment` body carrying only `prompt`. -/
def rawEmergencyMinimal : RawEmergencyRequest :=
  { prompt := some "Severe bleeding", user_profile := none,
    max_new_tokens := none, temperature := none, top_p := none }

/-- The session-shape invariant of the loader: the `model` global is
non-`None` only when `tokenizer` and `model_id_loaded` are set as well. -/
def SessionInv (st : Session) : Prop :=
  st.model.isSome → (st.tokenizer.isSome ∧ st.model_id_loaded.isSome)

/-! ## Helper lemmas about decimal rendering, strip and line splitting -/

/-- The digits prepended by `natDecAux` are independent of the accumulator. -/
theorem natDecAux_append (n : Nat) :
    ∀ acc : List Char, natDecAux n acc = natDecAux n [] ++ acc := by
  induction n using Nat.strong_induction_on with
  | _ n ih =>
    intro acc
    by_cases h : n < 10
    · rw [natDecAux, dif_pos h, natDecAux, dif_pos h]
      rfl
    · have hd : n / 10 < n := Nat.div_lt_self (by omega) (by omega)
      have e1 : natDecAux n acc = natDecAux (n / 10) (natDigitChar (n % 10) :: acc) := by
        rw [natDecAux, dif_neg h]
      have e2 : natDecAux n [] = natDecAux (n / 10) [natDigitChar (n % 10)] := by
        rw [natDecAux, dif_neg h]
      rw [e1, e2, ih (n / 10) hd (natDigitChar (n % 10) :: acc),
        ih (n / 10) hd [natDigitChar (n % 10)]]
      simp

/-- Digit characters really are digits. -/
theorem natDigitChar_isDigit (k : Nat) (h : k < 10) :
    (natDigitChar k).isDigit = true := by
  interval_cases k <;> decide

/-- Every character produced by `natDecAux` over a digit accumulator is a
digit. -/
theorem natDecAux_digits (n : Nat) :
    ∀ acc, (∀ c ∈ acc, c.isDigit = true) →
      ∀ c ∈ natDecAux n acc, c.isDigit = true := by
  induction n using Nat.strong_induction_on with
  | _ n ih =>
    intro acc hacc c hc
    by_cases h : n < 10
    · rw [natDecAux, dif_pos h] at hc
      rcases List.mem_cons.mp hc with rfl | hmem
      · exact natDigitChar_isDigit n h
      · exact hacc c hmem
    · rw [natDecAux, dif_neg h] at hc
      refine ih (n / 10) (Nat.div_lt_self (by omega) (by omega))
        (natDigitChar (n % 10) :: acc) ?_ c hc
      intro d hd
      rcases List.mem_cons.mp hd with rfl | hmem
      · exact natDigitChar_isDigit _ (Nat.mod_lt _ (by omega))
      · exact hacc d hmem

/-- `natDecAux` never returns the empty list. -/
theorem natDecAux_ne_nil (n : Nat) : ∀ acc, natDecAux n acc ≠ [] := by
  induction n using Nat.strong_induction_on with
  | _ n ih =>
    intro acc
    by_cases h : n < 10
    · rw [natDecAux, dif_pos h]
      exact List.cons_ne_nil _ _
    · rw [natDecAux, dif_neg h]
      exact ih (n / 10) (Nat.div_lt_self (by omega) (by omega)) _

/-- Every character of a rendered natural number is a digit. -/
theorem natDecimal_digits (n : Nat) : ∀ c ∈ natDecimal n, c.isDigit = true :=
  natDecAux_digits n [] (by simp)

/-- A rendered natural number ends in a digit. -/
theorem natDecimal_last_digit (n : Nat) :
    ∃ l d, natDecimal n = l ++ [d] ∧ d.isDigit = true := by
  rcases (natDecimal n).eq_nil_or_concat with h | ⟨l, d, h⟩
  · exact absurd h (natDecAux_ne_nil n [])
  · rw [List.concat_eq_append] at h
    exact ⟨l, d, h, natDecimal_digits n d (by rw [h]; simp)⟩

/-- A rendered integer ends in a digit. -/
theorem intDecimal_last_digit (a : Int) :
    ∃ l d, intDecimal a = l ++ [d] ∧ d.isDigit = true := by
  unfold intDecimal
  by_cases h : a < 0
  · rw [if_pos h]
    obtain ⟨l, d, hl, hd⟩ := natDecimal_last_digit a.natAbs
    exact ⟨'-' :: l, d, by rw [hl, List.cons_append], hd⟩
  · rw [if_neg h]
    exact natDecimal_last_digit a.toNat

/-- Every character of a rendered integer is a digit or the minus sign. -/
theorem intDecimal_chars (a : Int) :
    ∀ c ∈ intDecimal a, c.isDigit = true ∨ c = '-' := by
  intro c hc
  unfold intDecimal at hc
  by_cases h : a < 0
  · rw [if_pos h] at hc
    rcases List.mem_cons.mp hc with rfl | hmem
    · exact Or.inr rfl
    · exact Or.inl (natDecimal_digits _ c hmem)
  · rw [if_neg h] at hc
    exact Or.inl (natDecimal_digits _ c hc)

/-- A digit is not whitespace. -/
theorem isDigit_not_whitespace (c : Char) (h : c.isDigit = true) :
    c.isWhitespace = false := by
  by_contra hw
  rw [Bool.not_eq_false] at hw
  simp only [Char.isWhitespace, Bool.or_eq_true, decide_eq_true_eq] at hw
  rcases hw with ((rfl | rfl) | rfl) | rfl <;> exact absurd h (by decide)

/-- A digit is not a newline. -/
theorem isDigit_ne_newline (c : Char) (h : c.isDigit = true) : c ≠ '\n' := by
  rintro rfl
  exact absurd h (by decide)

/-- No character of a rendered integer is a newline. -/
theorem intDecimal_no_newline (a : Int) : ∀ c ∈ intDecimal a, c ≠ '\n' := by
  intro c hc
  rcases intDecimal_chars a c hc with h | rfl
  · exact isDigit_ne_newline c h
  · decide

/-- Python `strip` is the identity on a string with non-whitespace first and
last characters. -/
theorem pyStrip_eq_self (s : List Char)
    (c : Char) (t : List Char) (hcons : s = c :: t) (hc : c.isWhitespace = false)
    (m : List Char) (d : Char) (hconcat : s = m ++ [d])
    (hd : d.isWhitespace = false) :
    pyStrip s = s := by
  unfold pyStrip
  have h1 : s.dropWhile Char.isWhitespace = s := by
    rw [hcons, List.dropWhile_cons, hc]
    simp
  rw [h1]
  have h2 : s.reverse.dropWhile Char.isWhitespace = s.reverse := by
    rw [hconcat]
    simp [List.reverse_append, List.dropWhile_cons, hd]
  rw [h2, List.reverse_reverse]

/-- `splitLines` never returns the empty list of lines. -/
theorem splitLines_ne_nil (l : List Char) : splitLines l ≠ [] := by
  cases l with
  | nil => simp [splitLines]
  | cons c rest =>
    rw [splitLines]
    cases h : splitLines rest with
    | nil => simp
    | cons a as => by_cases hc : c = '\n' <;> simp [hc]

/-- A leading newline opens an empty first line. -/
theorem splitLines_newline_cons (b : List Char) :
    splitLines ('\n' :: b) = [] :: splitLines b := by
  rw [splitLines]
  cases h : splitLines b with
  | nil => exact absurd h (splitLines_ne_nil b)
  | cons l ls => simp

/-- Prepending newline-free characters extends the first line. -/
theorem splitLines_append (ys l : List Char) (ls : List (List Char))
    (hys : splitLines ys = l :: ls) :
    ∀ xs : List Char, (∀ c ∈ xs, c ≠ '\n') →
      splitLines (xs ++ ys) = (xs ++ l) :: ls := by
  intro xs
  induction xs with
  | nil =>
    intro _
    simpa using hys
  | cons c xs ih =>
    intro hxs
    have hc : c ≠ '\n' := hxs c (List.mem_cons_self c xs)
    rw [List.cons_append, splitLines,
      ih (fun d hd => hxs d (List.mem_cons_of_mem c hd))]
    simp [hc]

/-! ## Helper lemmas about the loader and the invoker -/

/-- When no model is loaded and either library load raises, the loader call
fails. -/
theorem load_fails_of_lib_failure (env : Env) (prec : Precision) (st : Session)
    (hm : st.model = none)
    (hfail : env.tokLoadOk = false ∨ env.modelLoadOk = false) :
    (load_model_and_tokenizer env prec st).2 = .error () := by
  unfold load_model_and_tokenizer
  rw [if_neg (by simp [hm])]
  rcases hfail with h | h
  · simp [hm, h]
  · by_cases ht : env.tokLoadOk = false
    · simp [hm, ht]
    · simp [hm, ht, h]

/-- A failing lazy load surfaces as a 503-mapped `serviceUnavailable`. -/
theorem generate_response_load_failure (env : Env) (st : Session)
    (sys user : String) (hist : List ChatMessage) (gp : GenParamsDict)
    (profile : Option UserProfile) (hm : st.model = none)
    (hfail : env.tokLoadOk = false ∨ env.modelLoadOk = false) :
    (generate_response env st sys user hist gp profile).2 =
      .error .serviceUnavailable := by
  unfold generate_response
  have hcond : st.model = none ∨ st.tokenizer = none := .inl hm
  rw [if_pos hcond]
  have := load_fails_of_lib_failure env env.precision st hm hfail
  simp only [this]

/-- With a loaded session, a raising `generate` call (or a `TypeError` while
building the generation config) surfaces as a 500-mapped
`generationFailure`. -/
theorem generate_response_gen_failure (env : Env) (st : Session)
    (sys user : String) (hist : List ChatMessage) (gp : GenParamsDict)
    (profile : Option UserProfile) (hm : st.model.isSome)
    (htk : st.tokenizer.isSome) (hgen : env.genOk = false) :
    (generate_response env st sys user hist gp profile).2 =
      .error .generationFailure := by
  unfold generate_response
  rw [if_neg (by simp [Option.isSome_iff_ne_none.mp hm,
    Option.isSome_iff_ne_none.mp htk])]
  cases hcfg : buildGenerationConfig gp with
  | error e => simp [hcfg]
  | ok cfg => simp [hcfg, hgen]

/-- With a loaded session, valid generation parameters and a non-raising
`generate`, the invoker succeeds and leaves the session unchanged. -/
theorem generate_response_success (env : Env) (st : Session)
    (sys user : String) (hist : List ChatMessage) (gp : GenParamsDict)
    (cfg : GenerationConfig) (profile : Option UserProfile)
    (hm : st.model.isSome) (htk : st.tokenizer.isSome) (hgen : env.genOk = true)
    (hcfg : buildGenerationConfig gp = .ok cfg) :
    ∃ answer, generate_response env st sys user hist gp profile =
      (st, .ok answer) := by
  unfold generate_response
  rw [if_neg (by simp [Option.isSome_iff_ne_none.mp hm,
    Option.isSome_iff_ne_none.mp htk])]
  simp only [hcfg, hgen]
  exact ⟨_, rfl⟩

/-! ## Claim theorems -/

/-- **C1.** For every generation request whose effective temperature is ≤ 0 and
effective top_p is ≥ 1, the generation invoker disables sampling
(`do_sample := false`) and removes `temperature` and `top_p` from the
generation configuration; with sampling disabled the decoding routine ignores
the random state, so two calls with identical input produce identical
output. -/
theorem C1_greedy_decoding_deterministic
    (gp : GenParamsDict) (t p : ℚ)
    (htemp : gp.temperature = some t) (htop : gp.top_p = some p)
    (ht : t ≤ 0) (hp : 1 ≤ p) :
    buildGenerationConfig gp =
      .ok { max_new_tokens := gp.max_new_tokens, temperature := none,
            top_p := none, do_sample := false } ∧
    ∀ (env₁ env₂ : Env) (cfg : GenerationConfig) (inputIds : List Nat),
      cfg.do_sample = false → env₁.greedyGen = env₂.greedyGen →
      runGenerate env₁ cfg inputIds = runGenerate env₂ cfg inputIds := by
  constructor
  · unfold buildGenerationConfig
    rw [htemp, htop]
    simp [ht, hp]
  · intro env₁ env₂ cfg inputIds hds hg
    simp [runGenerate, hds, hg]

/-- Witness for C1 at the concrete request values `temperature=0`, `top_p=1`,
`max_new_tokens=512`. -/
theorem C1_greedy_decoding_deterministic_witness :
    buildGenerationConfig
        { max_new_tokens := some 512, temperature := some 0, top_p := some 1 } =
      .ok { max_new_tokens := some 512, temperature := none, top_p := none,
            do_sample := false } :=
  (C1_greedy_decoding_deterministic
    { max_new_tokens := some 512, temperature := some 0, top_p := some 1 }
    0 1 rfl rfl (by norm_num) (by norm_num)).1

/-- **C4.** For every `/chat` request with a history of `N` prior turns, the
message sequence passed to the chat template (`buildMessages`, which
`generate_response` hands to `Env.applyChatTemplate`) has length exactly
`N + 2`: the system message first, then the `N` history turns in their given
order, then the new user message last. -/
theorem C4_message_sequence (sys user : String) (history : List ChatMessage) :
    (buildMessages sys history user).length = history.length + 2 ∧
    (buildMessages sys history user).head? =
      some { role := "system", content := sys } ∧
    (∀ i : Nat, i < history.length →
      (buildMessages sys history user)[i+1]? = history[i]?) ∧
    (buildMessages sys history user).getLast? =
      some { role := "user", content := user } := by
  refine ⟨?_, rfl, ?_, ?_⟩
  · simp [buildMessages]
  · intro i hi
    simp [buildMessages, List.getElem?_append_left hi]
  · rw [buildMessages,
      show ({ role := "system", content := sys } : ChatMessage) :: history ++
          [{ role := "user", content := user }] =
        (({ role := "system", content := sys } : ChatMessage) :: history) ++
          [{ role := "user", content := user }] from rfl,
      List.getLast?_concat]

/-- Witness for C4 at a one-turn history: entry `i+1 = 1` of the message
sequence is history turn `0`. -/
theorem C4_message_sequence_witness :
    (buildMessages "s" [{ role := "user", content := "hi" }] "u")[0+1]? =
      [({ role := "user", content := "hi" } : ChatMessage)][0]? :=
  (C4_message_sequence "s" "u" [{ role := "user", content := "hi" }]).2.2.1 0
    (by decide)

/-- **C7.** `GET /health` reports `model_status = "loaded"` iff both the model
and the tokenizer globals are set (`"not loaded"` otherwise), and returns the
session singleton unchanged — it never triggers a load. -/
theorem C7_health_check_pure (st : Session) :
    (health_check st).2 = st ∧
    ((health_check st).1.model_status = "loaded" ↔
      st.model.isSome ∧ st.tokenizer.isSome) ∧
    ((health_check st).1.model_status = "not loaded" ↔
      ¬(st.model.isSome ∧ st.tokenizer.isSome)) := by
  by_cases h : st.model.isSome ∧ st.tokenizer.isSome
  · refine ⟨by simp [health_check, h], by simp [health_check, h], ?_⟩
    simp only [health_check, if_pos h]
    constructor
    · intro hs
      exact absurd hs (by decide)
    · intro hn
      exact absurd h hn
  · refine ⟨by simp [health_check, h], ?_, by simp [health_check, h]⟩
    simp only [health_check, if_neg h]
    constructor
    · intro hs
      exact absurd hs (by decide)
    · intro hl
      exact absurd hl h

/-- **C8.** A load request with precision `"4-bit"` on a machine without CUDA
falls back to 16-bit (`torch_dtype=float16`, no quantization config), and
4-bit quantization is configured only when CUDA is available. -/
theorem C8_quantization_fallback (cuda : Bool) (p : Precision) :
    (cuda = false →
      effectivePrecision cuda .p4bit = .p16bit ∧
      loaderKwargs cuda .p4bit =
        { quantization4bit := false, torchDtypeFloat16 := true }) ∧
    ((loaderKwargs cuda p).quantization4bit = true → cuda = true) := by
  cases cuda <;> cases p <;> decide

/-- Witness for C8 on a CPU-only machine with requested precision 4-bit. -/
theorem C8_quantization_fallback_witness :
    effectivePrecision false .p4bit = .p16bit ∧
    loaderKwargs false .p4bit =
      { quantization4bit := false, torchDtypeFloat16 := true } :=
  (C8_quantization_fallback false .p4bit).1 rfl

/-- **C2 counterexample.** The no-op check of the loader (server.py line 101)
compares only the model identifier, which is hardcoded, and no precision is
recorded in the session.  Concretely: after a successful 16-bit load from the
initial state, a subsequent load call requesting 4-bit precision — a precision
change — returns the session unchanged with `.ok` instead of freeing the
prior session and reloading, contradicting the claim. -/
theorem C2_counterexample :
    (load_model_and_tokenizer envOk .p16bit Session.init).1 = loadedSession ∧
    load_model_and_tokenizer envOk .p4bit loadedSession = (loadedSession, .ok ()) :=
  ⟨rfl, rfl⟩

/-- **C2 amended.** If a model with the hardcoded model identifier is already
loaded, the loader call is a no-op leaving the session singleton unchanged —
regardless of the requested precision.  The prior session is freed before the
new load only when a model is loaded under a different model identifier
(observable here through the failure state: with the tokenizer load failing,
the propagated error leaves the cleared session behind). -/
theorem C2_amended_load_idempotence (env : Env) (prec : Precision) (st : Session) :
    (st.model.isSome → st.model_id_loaded = some HARDCODED_MODEL_ID →
      load_model_and_tokenizer env prec st = (st, .ok ())) ∧
    (st.model.isSome → st.model_id_loaded ≠ some HARDCODED_MODEL_ID →
      env.tokLoadOk = false →
      load_model_and_tokenizer env prec st =
        ({ model := none, tokenizer := none,
           device := some (deviceOf env.cudaAvailable),
           model_id_loaded := none }, .error ())) := by
  constructor
  · intro hm hid
    unfold load_model_and_tokenizer
    rw [if_pos ⟨hm, hid⟩]
  · intro hm hid htok
    unfold load_model_and_tokenizer
    rw [if_neg (fun h => hid h.2)]
    simp [hm, htok]

/-- Witness for the amended C2: a 4-bit load request on the already-loaded
session is a no-op. -/
theorem C2_amended_load_idempotence_witness :
    load_model_and_tokenizer envOk .p4bit loadedSession = (loadedSession, .ok ()) :=
  (C2_amended_load_idempotence envOk .p4bit loadedSession).1 rfl rfl

/-- **C9.** When the model-weights loading step fails (tokenizer load
succeeded, model load raised), the loader resets the session before
propagating the error: `model`, `tokenizer` and `model_id_loaded` all end up
`None`, a subsequent health check reports `"not loaded"`, and the invariant
that `model` is non-`None` only when `tokenizer` and `model_id_loaded` are
also set is preserved by every loader call. -/
theorem C9_load_failure_resets (env : Env) (prec : Precision) (st : Session)
    (htok : env.tokLoadOk = true) (hmodel : env.modelLoadOk = false)
    (hnoskip : ¬(st.model.isSome ∧ st.model_id_loaded = some HARDCODED_MODEL_ID)) :
    (load_model_and_tokenizer env prec st).2 = .error () ∧
    (load_model_and_tokenizer env prec st).1.model = none ∧
    (load_model_and_tokenizer env prec st).1.tokenizer = none ∧
    (load_model_and_tokenizer env prec st).1.model_id_loaded = none ∧
    (health_check (load_model_and_tokenizer env prec st).1).1.model_status =
      "not loaded" ∧
    (∀ (env' : Env) (prec' : Precision) (st' : Session),
      SessionInv st' → SessionInv (load_model_and_tokenizer env' prec' st').1) := by
  have hfinal : load_model_and_tokenizer env prec st =
      ({ model := none, tokenizer := none,
         device := some (deviceOf env.cudaAvailable),
         model_id_loaded := none }, .error ()) := by
    unfold load_model_and_tokenizer
    rw [if_neg hnoskip]
    by_cases hm : st.model.isSome <;> simp [hm, htok, hmodel]
  refine ⟨by rw [hfinal], by rw [hfinal], by rw [hfinal], by rw [hfinal],
    by rw [hfinal]; rfl, ?_⟩
  intro env' prec' st' hinv
  unfold load_model_and_tokenizer
  by_cases hskip : st'.model.isSome ∧ st'.model_id_loaded = some HARDCODED_MODEL_ID
  · rw [if_pos hskip]
    exact hinv
  · rw [if_neg hskip]
    by_cases hm : st'.model.isSome <;>
      by_cases ht : env'.tokLoadOk = false <;>
        by_cases hmo : env'.modelLoadOk = false <;>
          simp [hm, ht, hmo, SessionInv]

/-- Witness for C9: from the initial session, with a failing model load, the
call errors and leaves `model = None`. -/
theorem C9_load_failure_resets_witness :
    (load_model_and_tokenizer envModelLoadFails .p16bit Session.init).2 =
      .error () ∧
    (load_model_and_tokenizer envModelLoadFails .p16bit Session.init).1.model =
      none := by
  have h := C9_load_failure_resets envModelLoadFails .p16bit Session.init rfl rfl
    (by decide)
  exact ⟨h.1, h.2.1⟩

/-- **C6.** Every surfaced failure of `/chat` falls into exactly one of three
classes: a body missing the required `prompt` yields the schema-validation
error with the handler body never running (the session is untouched and no
generation is attempted); a model-load failure yields HTTP 503; a generation
failure yields HTTP 500; and every request outcome is one of these three or a
successful answer. -/
theorem C6_error_classes (env : Env) (st : Session) :
    (∀ raw : RawChatRequest, raw.prompt = none →
      chatEndpoint env st raw = (st, .validationError)) ∧
    (∀ raw : RawChatRequest, raw.prompt.isSome →
      st.model = none → (env.tokLoadOk = false ∨ env.modelLoadOk = false) →
      (chatEndpoint env st raw).2 = .httpError 503) ∧
    (∀ raw : RawChatRequest, raw.prompt.isSome →
      st.model.isSome → st.tokenizer.isSome → env.genOk = false →
      (chatEndpoint env st raw).2 = .httpError 500) ∧
    (∀ raw : RawChatRequest,
      (chatEndpoint env st raw).2 = .validationError ∨
      (chatEndpoint env st raw).2 = .httpError 503 ∨
      (chatEndpoint env st raw).2 = .httpError 500 ∨
      ∃ a, (chatEndpoint env st raw).2 = .ok a) := by
  refine ⟨?_, ?_, ?_, ?_⟩
  · intro raw hp
    simp [chatEndpoint, parseChatRequest, hp]
  · intro raw hp hm hfail
    obtain ⟨p, hp⟩ := Option.isSome_iff_exists.mp hp
    simp only [chatEndpoint, parseChatRequest, hp]
    rw [generate_response_load_failure env st CHAT_SYSTEM_PROMPT _ _ _ _ hm hfail]
    rfl
  · intro raw hp hm htk hgen
    obtain ⟨p, hp⟩ := Option.isSome_iff_exists.mp hp
    simp only [chatEndpoint, parseChatRequest, hp]
    rw [generate_response_gen_failure env st CHAT_SYSTEM_PROMPT _ _ _ _ hm htk hgen]
    rfl
  · intro raw
    cases hp : raw.prompt with
    | none =>
      left
      simp [chatEndpoint, parseChatRequest, hp]
    | some p =>
      simp only [chatEndpoint, parseChatRequest, hp]
      cases hr : (generate_response env st CHAT_SYSTEM_PROMPT p
          (raw.history.getD [])
          { max_new_tokens := raw.max_new_tokens.getD (some 512),
            temperature := raw.temperature.getD (some (0.7 : ℚ)),
            top_p := raw.top_p.getD (some (0.9 : ℚ)) }
          (raw.user_profile.getD none)).2 with
      | ok a =>
        right; right; right
        exact ⟨a, by simp [hr, outcomeOfResult]⟩
      | error e =>
        cases e with
        | serviceUnavailable =>
          right; left
          simp [hr, outcomeOfResult]
        | generationFailure =>
          right; right; left
          simp [hr, outcomeOfResult]

/-- Witness for C6: a `/chat` body without `prompt` is rejected by validation
with the session untouched; on an unloaded session with a failing model load
the outcome is 503; on a loaded session with a raising `generate` it is
500. -/
theorem C6_error_classes_witness :
    chatEndpoint envOk Session.init rawChatNoPrompt =
      (Session.init, .validationError) ∧
    (chatEndpoint envModelLoadFails Session.init rawChatMinimal).2 =
      .httpError 503 ∧
    (chatEndpoint envGenFails loadedSession rawChatMinimal).2 =
      .httpError 500 := by
  refine ⟨?_, ?_, ?_⟩
  · exact (C6_error_classes envOk Session.init).1 rawChatNoPrompt rfl
  · exact (C6_error_classes envModelLoadFails Session.init).2.1 rawChatMinimal
      rfl rfl (Or.inr rfl)
  · exact (C6_error_classes envGenFails loadedSession).2.2.1 rawChatMinimal
      rfl rfl rfl rfl

/-- **C10.** `/chat` defaults to `max_new_tokens=512`, `temperature=0.7`,
`top_p=0.9` when the request omits them, while `/emergency_assessment`
defaults to `max_new_tokens=768`, `temperature=0.3`, `top_p=0.7`; and
`/emergency_assessment` always calls the invoker with an empty history, so
its message sequence is exactly `[system, user]`. -/
theorem C10_endpoint_defaults :
    (∀ (raw : RawChatRequest) (p : String), raw.prompt = some p →
      raw.max_new_tokens = none → raw.temperature = none → raw.top_p = none →
      parseChatRequest raw = .ok
        { prompt := p, history := raw.history.getD [],
          user_profile := raw.user_profile.getD none,
          max_new_tokens := some 512, temperature := some (0.7 : ℚ),
          top_p := some (0.9 : ℚ) }) ∧
    (∀ (raw : RawEmergencyRequest) (p : String), raw.prompt = some p →
      raw.max_new_tokens = none → raw.temperature = none → raw.top_p = none →
      parseEmergencyRequest raw = .ok
        { prompt := p, user_profile := raw.user_profile.getD none,
          max_new_tokens := some 768, temperature := some (0.3 : ℚ),
          top_p := some (0.7 : ℚ) }) ∧
    (∀ (env : Env) (st : Session) (raw : RawEmergencyRequest)
      (req : EmergencyAssessmentRequest),
      parseEmergencyRequest raw = .ok req →
      emergencyEndpoint env st raw =
        ((generate_response env st EMERGENCY_SYSTEM_PROMPT req.prompt []
            { max_new_tokens := req.max_new_tokens,
              temperature := req.temperature, top_p := req.top_p }
            req.user_profile).1,
         outcomeOfResult (generate_response env st EMERGENCY_SYSTEM_PROMPT
            req.prompt []
            { max_new_tokens := req.max_new_tokens,
              temperature := req.temperature, top_p := req.top_p }
            req.user_profile).2)) ∧
    (∀ s u : String, buildMessages s [] u =
      [{ role := "system", content := s }, { role := "user", content := u }]) := by
  refine ⟨?_, ?_, ?_, ?_⟩
  · intro raw p hp h1 h2 h3
    simp [parseChatRequest, hp, h1, h2, h3]
  · intro raw p hp h1 h2 h3
    simp [parseEmergencyRequest, hp, h1, h2, h3]
  · intro env st raw req hreq
    simp [emergencyEndpoint, hreq]
  · intro s u
    rfl

/-- Witness for C10 at minimal concrete bodies for both endpoints. -/
theorem C10_endpoint_defaults_witness :
    parseChatRequest rawChatMinimal = .ok
      { prompt := "What is flu?", history := [], user_profile := none,
        max_new_tokens := some 512, temperature := some (0.7 : ℚ),
        top_p := some (0.9 : ℚ) } ∧
    parseEmergencyRequest rawEmergencyMinimal = .ok
      { prompt := "Severe bleeding", user_profile := none,
        max_new_tokens := some 768, temperature := some (0.3 : ℚ),
        top_p := some (0.7 : ℚ) } :=
  ⟨C10_endpoint_defaults.1 rawChatMinimal "What is flu?" rfl rfl rfl rfl,
   C10_endpoint_defaults.2.1 rawEmergencyMinimal "Severe bleeding" rfl rfl rfl rfl⟩

/-- **C5.** The formatted prompt is tokenised with truncation to at most 4096
tokens: the token sequence fed to `generate` never exceeds 4096 tokens, an
oversized tokenisation is cut to its first 4096 tokens, and generation still
proceeds to a successful answer (no request is rejected for being
oversized). -/
theorem C5_input_truncation (env : Env) (promptFormatted : String) :
    (truncatedInputIds env promptFormatted).length ≤ 4096 ∧
    ((env.tokenize promptFormatted).length > 4096 →
      truncatedInputIds env promptFormatted =
        (env.tokenize promptFormatted).take 4096 ∧
      (truncatedInputIds env promptFormatted).length = 4096) ∧
    (∀ (st : Session) (sys user : String) (hist : List ChatMessage)
      (gp : GenParamsDict) (cfg : GenerationConfig) (profile : Option UserProfile),
      st.model.isSome → st.tokenizer.isSome → env.genOk = true →
      buildGenerationConfig gp = .ok cfg →
      ∃ answer, generate_response env st sys user hist gp profile =
        (st, .ok answer)) := by
  refine ⟨?_, ?_, ?_⟩
  · simp [truncatedInputIds]
  · intro hlong
    refine ⟨rfl, ?_⟩
    simp only [truncatedInputIds, List.length_take]
    omega
  · intro st sys user hist gp cfg profile hm htk hgen hcfg
    exact generate_response_success env st sys user hist gp cfg profile hm htk
      hgen hcfg

/-- Witness for C5: a tokenizer producing 5000 tokens is truncated to the
first 4096 and generation on a loaded session still succeeds. -/
theorem C5_input_truncation_witness :
    truncatedInputIds envLongTokens "x" =
      (envLongTokens.tokenize "x").take 4096 ∧
    ∃ answer, generate_response envLongTokens loadedSession CHAT_SYSTEM_PROMPT
      "q" []
      { max_new_tokens := some 512, temperature := some (0.7 : ℚ),
        top_p := some (0.9 : ℚ) } none = (loadedSession, .ok answer) := by
  have hlen : (envLongTokens.tokenize "x").length > 4096 := by
    show (List.replicate 5000 0).length > 4096
    rw [List.length_replicate]
    norm_num
  constructor
  · exact ((C5_input_truncation envLongTokens "x").2.1 hlen).1
  · exact (C5_input_truncation envLongTokens "x").2.2 loadedSession
      CHAT_SYSTEM_PROMPT "q" []
      { max_new_tokens := some 512, temperature := some (0.7 : ℚ),
        top_p := some (0.9 : ℚ) }
      { max_new_tokens := some 512, temperature := some (0.7 : ℚ),
        top_p := some (0.9 : ℚ), do_sample := true } none rfl rfl rfl
      (by norm_num [buildGenerationConfig])

/-- **C3 counterexample.** The profile renderer uses Python truthiness
(`if profile_data.get('age')`), so the integer `0` — a present, explicitly
set age — is treated as falsy: with a profile whose only set field is
`age = 0`, the effective system prompt carries no profile block at all
(zero profile lines, not the claimed exactly one). -/
theorem C3_counterexample :
    effectiveSystemPrompt CHAT_SYSTEM_PROMPT (some (ageOnlyProfile 0)) =
      CHAT_SYSTEM_PROMPT ∧
    countBulletLines
      (effectiveSystemPrompt CHAT_SYSTEM_PROMPT (some (ageOnlyProfile 0))).data =
      0 :=
  ⟨rfl, by set_option maxRecDepth 10000 in decide⟩

/-- **C3 amended.** For every generation request carrying a profile in which
only `age` is set *to a truthy (non-zero) value*, the effective system prompt
contains exactly one profile bullet line, namely the `"- Age: ..."` line;
profile fields that are absent, empty, or falsy (`0` for `age`) produce no
line at all. -/
theorem C3_amended_profile_lines (a : Int) (ha : a ≠ 0) (base : String)
    (hbase : countBulletLines base.data = 0) :
    countBulletLines
      (effectiveSystemPrompt base (some (ageOnlyProfile a))).data = 1 ∧
    (splitLines (effectiveSystemPrompt base (some (ageOnlyProfile a))).data).filter
      isBulletLine = [ageLine a] ∧
    (∀ p : UserProfile, truthyInt p.age = false → truthyStr p.gender = false →
      truthyList p.conditions = false → truthyList p.allergies = false →
      truthyList p.medications = false →
      effectiveSystemPrompt base (some p) = base) := by
  obtain ⟨l, dd, hdec, hddig⟩ := intDecimal_last_digit a
  have hparts : profileParts (ageOnlyProfile a) = [ageLine a] := by
    simp [profileParts, ageOnlyProfile, truthyInt, truthyStr, truthyList, ha]
  have hpre : ∀ c ∈ ('-' :: ' ' :: "Age: ".data), c ≠ '\n' := by decide
  have hnlAge : ∀ c ∈ ageLine a, c ≠ '\n' := by
    intro c hc
    rcases List.mem_append.mp hc with h | h
    · exact hpre c h
    · exact intDecimal_no_newline a c h
  have hU : ∀ c ∈ "User Profile:".data, c ≠ '\n' := by decide
  have hconcat : "User Profile:".data ++ '\n' :: ageLine a =
      ("User Profile:".data ++ '\n' :: (('-' :: ' ' :: "Age: ".data) ++ l)) ++
        [dd] := by
    rw [ageLine, hdec]
    simp
  have hstrip : pyStrip ("User Profile:".data ++ '\n' :: ageLine a) =
      "User Profile:".data ++ '\n' :: ageLine a :=
    pyStrip_eq_self _ 'U' ("ser Profile:".data ++ '\n' :: ageLine a) rfl
      (by decide) _ dd hconcat (isDigit_not_whitespace dd hddig)
  have hdata : (effectiveSystemPrompt base (some (ageOnlyProfile a))).data =
      "User Profile:".data ++ '\n' ::
        (ageLine a ++ '\n' :: '\n' :: base.data) := by
    simp only [effectiveSystemPrompt, hparts, List.isEmpty_cons,
      Bool.false_eq_true, if_false, joinNL, hstrip]
    simp
  have h2 : splitLines ('\n' :: '\n' :: base.data) =
      [] :: [] :: splitLines base.data := by
    rw [splitLines_newline_cons, splitLines_newline_cons]
  have h3 : splitLines (ageLine a ++ '\n' :: '\n' :: base.data) =
      ageLine a :: [] :: splitLines base.data := by
    have := splitLines_append ('\n' :: '\n' :: base.data) []
      ([] :: splitLines base.data) h2 (ageLine a) hnlAge
    simpa using this
  have h4 : splitLines ('\n' :: (ageLine a ++ '\n' :: '\n' :: base.data)) =
      [] :: ageLine a :: [] :: splitLines base.data := by
    rw [splitLines_newline_cons, h3]
  have h5 : splitLines ("User Profile:".data ++ '\n' ::
      (ageLine a ++ '\n' :: '\n' :: base.data)) =
      "User Profile:".data :: ageLine a :: [] :: splitLines base.data := by
    have := splitLines_append ('\n' :: (ageLine a ++ '\n' :: '\n' :: base.data))
      [] (ageLine a :: [] :: splitLines base.data) h4 "User Profile:".data hU
    simpa using this
  have hbase' : (splitLines base.data).filter isBulletLine = [] :=
    List.length_eq_zero.mp hbase
  have hageb : isBulletLine (ageLine a) = true := by
    rw [ageLine, List.cons_append, List.cons_append]
    rfl
  have hUb : isBulletLine "User Profile:".data = false := by decide
  have hnilb : isBulletLine ([] : List Char) = false := rfl
  have hfilter : (splitLines
      (effectiveSystemPrompt base (some (ageOnlyProfile a))).data).filter
      isBulletLine = [ageLine a] := by
    rw [hdata, h5]
    simp [List.filter_cons, hageb, hUb, hnilb, hbase']
  refine ⟨?_, hfilter, ?_⟩
  · unfold countBulletLines
    rw [hfilter]
    rfl
  · intro p h1 h2' h3' h4' h5'
    have hparts0 : profileParts p = [] := by
      simp [profileParts, h1, h2', h3', h4', h5']
    simp [effectiveSystemPrompt, hparts0]

/-- Witness for the amended C3: with the real chat system prompt (itself free
of bullet lines) and age 34, the effective prompt has exactly one profile
line. -/
theorem C3_amended_profile_lines_witness :
    countBulletLines
      (effectiveSystemPrompt CHAT_SYSTEM_PROMPT (some (ageOnlyProfile 34))).data =
      1 :=
  (C3_amended_profile_lines 34 (by norm_num) CHAT_SYSTEM_PROMPT
    (by set_option maxRecDepth 10000 in decide)).1

end Server
